import Mathlib

/-!
# bubble-client: packet framing and frame decode pipeline of `MediaSession`

A shallow embedding of `src/media.cpp`.

* The receive buffer is a list of bytes; the structure views `PackHead` and
  `MediaPackData` that the code lays over it by pointer casts are read at the
  field offsets of a `Config`, because `media.h`, which declares the two
  structures and the macros `STRUCT_MEMBER_POS` and `PACKHEAD_SIZE`, is not
  among the sources.
* The collaborators (transport session, libavcodec, libswscale, the allocators)
  are scripted: every call takes its result from a list of answers, and every
  call is written to an event list, so that "is called" and "is not called" are
  statements about that list.
* A method returns `Except Halt _`: `Halt.blocked` when a collaborator has no
  further answer, `Halt.assertFailed` when an `assert` of the code fails,
  `Halt.nullDeref` when the code reads through a pointer that is `NULL`.
-/

namespace BubbleClient

/-! ## Bytes and machine integers -/

/-- Contents of a `char` buffer, one entry per byte, lowest address first. -/
abbrev Buffer := List Nat

/-- The byte at offset `i` of a buffer, as an unsigned value. -/
def byteAt (buf : Buffer) (i : Nat) : Nat :=
  buf.getD i 0 % 256

/-- Value of `ntohl(field)` for a 32-bit field stored at offset `i`: the four bytes
taken in network (big-endian) order. -/
def ntohlAt (buf : Buffer) (i : Nat) : Nat :=
  byteAt buf i * 2 ^ 24 + byteAt buf (i + 1) * 2 ^ 16 + byteAt buf (i + 2) * 2 ^ 8 + byteAt buf (i + 3)

/-- Conversion of a `uint32_t` to `int` (32-bit two's complement), as it happens when
`uiMediaPackLen` is passed for the parameter `int size` of `decodeFrame`. -/
def intOfUInt32 (n : Nat) : Int :=
  if n % 2 ^ 32 < 2 ^ 31 then ((n % 2 ^ 32 : Nat) : Int) else ((n % 2 ^ 32 : Nat) : Int) - 2 ^ 32

/-! ## What the missing headers declare -/

/-- The declarations of `media.h` and of the libav headers that `media.cpp` uses, taken
as parameters. Offsets are in bytes from the start of the structure. -/
structure Config where
  /-- offset of `PackHead::uiLength` -/
  posLength : Nat
  /-- value of `STRUCT_MEMBER_POS(PackHead, cPackType)`, the offset of `PackHead::cPackType` -/
  posPackType : Nat
  /-- offset of `PackHead::pData` -/
  posData : Nat
  /-- value of `PACKHEAD_SIZE` -/
  PACKHEAD_SIZE : Nat
  /-- offset of `MediaPackData::uiLength` -/
  posMediaLength : Nat
  /-- offset of `MediaPackData::cMediaType` -/
  posMediaType : Nat
  /-- value of `STRUCT_MEMBER_POS(MediaPackData, pData)`, the offset of `MediaPackData::pData` -/
  posMediaData : Nat
  /-- width in bits of the unsigned type in which the two length sums of `processPacket`
  are evaluated (that of `size_t` when the macros have that type) -/
  sizeBits : Nat
  /-- enumerator `MT_IDR` -/
  MT_IDR : Nat
  /-- enumerator `MT_PSLICE` -/
  MT_PSLICE : Nat
  /-- enumerator for audio payloads -/
  MT_AUDIO : Nat
  /-- value of `AVERROR(EAGAIN)` -/
  AVERROR_EAGAIN : Int
  /-- value of `AVERROR_EOF` -/
  AVERROR_EOF : Int
  deriving DecidableEq, Repr

/-- Modelled from the spec: the structure layout and enumerators of `media.h` (absent from the
sources), following the wire format of section 6: outer envelope of 1 byte `packType` then 4
bytes `length`, inner payload of 4 bytes `innerLength`, 1 byte `channelId`, 1 byte `mediaKind`
(IDR = 0, P-slice = 1, audio = 2). `PACKHEAD_SIZE` is the size of the outer header, 64-bit
`size_t`, and the libavutil error codes are those of a Linux build. -/
def wireConfig : Config where
  posLength := 1
  posPackType := 0
  posData := 5
  PACKHEAD_SIZE := 5
  posMediaLength := 0
  posMediaType := 5
  posMediaData := 6
  sizeBits := 64
  MT_IDR := 0
  MT_PSLICE := 1
  MT_AUDIO := 2
  AVERROR_EAGAIN := -11
  AVERROR_EOF := -541478725

/-- The same declarations with the length sums evaluated in 32 bits. -/
def wireConfig32 : Config :=
  { wireConfig with sizeBits := 32 }

/-! ## State of a `MediaSession` and of its collaborators -/

/-- The data members of `MediaSession`; a pointer is `none` when it is `NULL`. -/
structure MediaSession where
  isRunning : Bool
  mCodec : Option Nat
  mCodecCtx : Option Nat
  mAvFrame : Option Nat
  mSwsCtx : Option Nat
  mRGBFrame : Option Nat
  mRGBFrameBuffer : Option Nat
  /-- contents of `tmpRecvBuf` -/
  tmpRecvBuf : Buffer
  /-- `mAvPkt.size` -/
  mAvPktSize : Int
  /-- `mAvPkt.data`, as an offset into `tmpRecvBuf` -/
  mAvPktData : Option Nat
  deriving DecidableEq, Repr

/-- State left by the constructor `MediaSession::MediaSession`; the receive buffer and the
packet are not initialised by it, so their contents are arbitrary. -/
def MediaSession.new (buf : Buffer) (pktSize : Int) (pktData : Option Nat) : MediaSession where
  isRunning := false
  mCodec := none
  mCodecCtx := none
  mAvFrame := none
  mSwsCtx := none
  mRGBFrame := none
  mRGBFrameBuffer := none
  tmpRecvBuf := buf
  mAvPktSize := pktSize
  mAvPktData := pktData

/-- Why a run of the model has no result. -/
inductive Halt where
  /-- a collaborator was asked for more answers than its script holds -/
  | blocked
  /-- an `assert` of the code failed -/
  | assertFailed
  /-- the code read a member through a pointer that is `NULL` -/
  | nullDeref
  deriving DecidableEq, Repr

/-- Calls made during a run, in order. -/
inductive Event where
  | avcodec_find_decoder (result : Option Nat)
  | avcodec_open2 (status : Int)
  | receive_packet_to_buffer (status : Int)
  | processPacket
  | decodeFrame (buffer : Nat) (size : Int)
  | avcodec_send_packet (data : Nat) (size : Int) (status : Int)
  | avcodec_receive_frame (status : Int)
  | displayFrame (width height : Int)
  | sws_getContext (pix_fmt width height : Int) (result : Option Nat)
  | av_frame_alloc (result : Option Nat)
  | av_malloc (result : Option Nat)
  | sws_freeContext (ctx : Nat)
  | av_free (ptr : Nat)
  | av_image_fill_arrays
  | sws_scale (status : Int)
  | imshow (width height : Int)
  deriving DecidableEq, Repr

/-- Answers of the three allocators called by `allocateConversionCtx`. -/
structure AllocAnswers where
  /-- result of `sws_getContext` -/
  sws : Option Nat
  /-- result of `av_frame_alloc` -/
  frame : Option Nat
  /-- result of `av_malloc` -/
  buffer : Option Nat
  deriving DecidableEq, Repr

/-- One answer of `avcodec_receive_frame`, with what the collaborators answer while the
frame it delivers is displayed. -/
structure FrameAnswer where
  /-- return value of `avcodec_receive_frame` -/
  status : Int
  /-- `mCodecCtx->pix_fmt` after the call -/
  pix_fmt : Int
  /-- `mCodecCtx->width` after the call -/
  width : Int
  /-- `mCodecCtx->height` after the call -/
  height : Int
  alloc : AllocAnswers
  /-- return value of `sws_scale` -/
  scale : Int
  deriving DecidableEq, Repr

/-- Scripts of the decoder: the statuses `avcodec_send_packet` returns, call after call, and
the answers of `avcodec_receive_frame`, call after call. -/
structure Codec where
  send : List Int
  frames : List FrameAnswer
  deriving DecidableEq, Repr

/-- Answers of the collaborators called by `init`. -/
structure InitAnswers where
  /-- result of `avcodec_find_decoder` -/
  codec : Option Nat
  /-- result of `avcodec_alloc_context3` -/
  ctx : Option Nat
  /-- result of `av_frame_alloc` -/
  frame : Option Nat
  /-- return value of `avcodec_open2` -/
  open2 : Int
  deriving DecidableEq, Repr

/-! ## The methods of `MediaSession` -/

/-- The method `MediaSession::allocateConversionCtx` (media.cpp 194-236). -/
def allocateConversionCtx (s : MediaSession) (a : AllocAnswers) (pix_fmt width height : Int) :
    Except Halt (Int × MediaSession × List Event) :=
  if s.mSwsCtx.isSome then
    .ok (0, s, [])
  else if ¬ (s.mRGBFrame = none ∧ s.mRGBFrameBuffer = none) then
    .error .assertFailed
  else
    match a.sws with
    | none =>
      .ok (-1, { s with mSwsCtx := none }, [.sws_getContext pix_fmt width height none])
    | some ctx =>
      match a.frame with
      | none =>
        .ok (-1, { s with mSwsCtx := none, mRGBFrame := none },
          [.sws_getContext pix_fmt width height (some ctx), .av_frame_alloc none,
           .sws_freeContext ctx])
      | some fr =>
        match a.buffer with
        | none =>
          .ok (-1, { s with mSwsCtx := none, mRGBFrame := none, mRGBFrameBuffer := none },
            [.sws_getContext pix_fmt width height (some ctx), .av_frame_alloc (some fr),
             .av_malloc none, .sws_freeContext ctx, .av_free fr])
        | some b =>
          .ok (0, { s with mSwsCtx := some ctx, mRGBFrame := some fr, mRGBFrameBuffer := some b },
            [.sws_getContext pix_fmt width height (some ctx), .av_frame_alloc (some fr),
             .av_malloc (some b), .av_image_fill_arrays])

/-- The method `MediaSession::displayFrame` (media.cpp 238-261), called with the pointer
`frame` and with `width` and `height`, while the collaborators answer as `f` says. It reads
`mCodecCtx->pix_fmt` (241), then, with the conversion resources allocated, `frame->data` and
`mRGBFrame->data` (248). -/
def displayFrame (s : MediaSession) (frame : Option Nat) (width height : Int)
    (f : FrameAnswer) : Except Halt (Int × MediaSession × List Event) :=
  if s.mCodecCtx = none then
    .error .nullDeref
  else
    match allocateConversionCtx s f.alloc f.pix_fmt width height with
    | .error e => .error e
    | .ok (status, s1, evs) =>
      if status < 0 then
        .ok (-1, s1, .displayFrame width height :: evs)
      else if frame = none ∨ s1.mRGBFrame = none then
        .error .nullDeref
      else if f.scale < 0 then
        .ok (-1, s1, .displayFrame width height :: evs ++ [.sws_scale f.scale])
      else
        .ok (0, s1, .displayFrame width height :: evs ++
          [.sws_scale f.scale, .imshow width height])

/-- The `while (true)` loop of `MediaSession::decodeFrame` (media.cpp 173-189), run on the
answers `avcodec_receive_frame` still has to give; returns the answers not asked for. After a
status 0 it reads `mCodecCtx->width` and `mCodecCtx->height` (188) and passes `mAvFrame` to
`displayFrame`. -/
def decodeFrameLoop (C : Config) (s : MediaSession) :
    List FrameAnswer → Except Halt (Int × MediaSession × List FrameAnswer × List Event)
  | [] => .error .blocked
  | f :: rest =>
    if f.status = C.AVERROR_EAGAIN ∨ f.status = C.AVERROR_EOF then
      .ok (0, s, rest, [.avcodec_receive_frame f.status])
    else if f.status ≠ 0 then
      .ok (-1, s, rest, [.avcodec_receive_frame f.status])
    else if s.mCodecCtx = none then
      .error .nullDeref
    else
      match displayFrame s s.mAvFrame f.width f.height f with
      | .error e => .error e
      | .ok (_, s1, evs1) =>
        match decodeFrameLoop C s1 rest with
        | .error e => .error e
        | .ok (status, s2, rest2, evs2) =>
          .ok (status, s2, rest2, .avcodec_receive_frame f.status :: evs1 ++ evs2)

/-- The method `MediaSession::decodeFrame` (media.cpp 160-192); `buffer` is the offset of the
frame bytes in `tmpRecvBuf`. -/
def decodeFrame (C : Config) (s : MediaSession) (w : Codec) (buffer : Nat) (size : Int) :
    Except Halt (Int × MediaSession × Codec × List Event) :=
  let s1 := { s with mAvPktSize := size, mAvPktData := some buffer }
  match w.send with
  | [] => .error .blocked
  | status :: send =>
    if status ≠ 0 then
      .ok (-1, s1, { w with send := send },
        [.decodeFrame buffer size, .avcodec_send_packet buffer size status])
    else
      match decodeFrameLoop C s1 w.frames with
      | .error e => .error e
      | .ok (r, s2, frames, evs) =>
        .ok (r, s2, { send := send, frames := frames },
          .decodeFrame buffer size :: .avcodec_send_packet buffer size status :: evs)

/-- The local `uiPackLen` of `processPacket`: `ntohl(packhead->uiLength)`. -/
def uiPackLen (C : Config) (packet : Buffer) : Nat :=
  ntohlAt packet C.posLength

/-- The local `packsize` of `processPacket`:
`uiPackLen + STRUCT_MEMBER_POS(PackHead, cPackType)`. -/
def packsize (C : Config) (packet : Buffer) : Nat :=
  (uiPackLen C packet + C.posPackType) % 2 ^ C.sizeBits

/-- The local `uiMediaPackLen` of `processPacket`: `ntohl(media_packhead->uiLength)`, where
`media_packhead` is `packhead->pData`. -/
def uiMediaPackLen (C : Config) (packet : Buffer) : Nat :=
  ntohlAt packet (C.posData + C.posMediaLength)

/-- The left-hand side of the length test of `processPacket`:
`uiMediaPackLen + PACKHEAD_SIZE + STRUCT_MEMBER_POS(MediaPackData, pData)`. -/
def frameEnd (C : Config) (packet : Buffer) : Nat :=
  (uiMediaPackLen C packet + C.PACKHEAD_SIZE + C.posMediaData) % 2 ^ C.sizeBits

/-- The local `framedata` of `processPacket`, `media_packhead->pData`, as an offset into the
packet. -/
def framedata (C : Config) : Nat :=
  C.posData + C.posMediaData

/-- The byte `media_packhead->cMediaType`. -/
def cMediaType (C : Config) (packet : Buffer) : Nat :=
  byteAt packet (C.posData + C.posMediaType)

/-- The method `MediaSession::processPacket` (media.cpp 119-157) on a packet with the given
contents. -/
def processPacket (C : Config) (s : MediaSession) (w : Codec) (packet : Buffer) :
    Except Halt (Int × MediaSession × Codec × List Event) :=
  if frameEnd C packet > packsize C packet then
    .ok (-1, s, w, [.processPacket])
  else if cMediaType C packet = C.MT_IDR ∨ cMediaType C packet = C.MT_PSLICE then
    match decodeFrame C s w (framedata C) (intOfUInt32 (uiMediaPackLen C packet)) with
    | .error e => .error e
    | .ok (_, s1, w1, evs) => .ok (0, s1, w1, .processPacket :: evs)
  else
    .ok (0, s, w, [.processPacket])

/-- The method `MediaSession::init` (media.cpp 40-70). -/
def init (s : MediaSession) (a : InitAnswers) : Int × MediaSession × List Event :=
  match a.codec with
  | none => (-1, { s with mCodec := none }, [.avcodec_find_decoder none])
  | some c =>
    let s1 := { s with mCodec := some c, mCodecCtx := a.ctx, mAvFrame := a.frame }
    if a.open2 < 0 then
      (-1, { s1 with mCodecCtx := none, mAvFrame := none },
        [.avcodec_find_decoder (some c), .avcodec_open2 a.open2])
    else
      (0, { s1 with mAvPktSize := 0, mAvPktData := none },
        [.avcodec_find_decoder (some c), .avcodec_open2 a.open2])

/-- The `while (isRunning)` loop of `MediaSession::start` (media.cpp 99-114), run on the
answers `receive_packet_to_buffer` still has to give: each is the status returned and the
contents of `tmpRecvBuf` after the call. -/
def startLoop (C : Config) (s : MediaSession) (w : Codec) (recv : List (Int × Buffer)) :
    Except Halt (MediaSession × Codec × List (Int × Buffer) × List Event) :=
  if s.isRunning = false then
    .ok (s, w, recv, [])
  else
    match processPacket C s w s.tmpRecvBuf with
    | .error e => .error e
    | .ok (status, s1, w1, evs1) =>
      if status ≠ 0 then
        .ok (s1, w1, recv, evs1)
      else
        match recv with
        | [] => .error .blocked
        | (st, buf) :: rest =>
          let s2 := { s1 with tmpRecvBuf := buf }
          if st ≠ 0 then
            .ok (s2, w1, rest, evs1 ++ [.receive_packet_to_buffer st])
          else
            match startLoop C s2 w1 rest with
            | .error e => .error e
            | .ok (s3, w3, rest3, evs3) =>
              .ok (s3, w3, rest3, evs1 ++ .receive_packet_to_buffer st :: evs3)

/-- The method `MediaSession::start` (media.cpp 72-117). -/
def start (C : Config) (s : MediaSession) (a : InitAnswers) (w : Codec)
    (recv : List (Int × Buffer)) :
    Except Halt (Int × MediaSession × Codec × List (Int × Buffer) × List Event) :=
  match init s a with
  | (status, s1, evs0) =>
    if status ≠ 0 then
      .ok (-1, s1, w, recv, evs0)
    else
      match recv with
      | [] => .error .blocked
      | (st, buf) :: rest =>
        let s2 := { s1 with tmpRecvBuf := buf }
        if byteAt s2.tmpRecvBuf C.posPackType = 0x08 then
          .ok (-1, s2, w, rest, evs0 ++ [.receive_packet_to_buffer st])
        else
          let s3 := { s2 with isRunning := true }
          match startLoop C s3 w rest with
          | .error e => .error e
          | .ok (s4, w4, rest4, evs4) =>
            .ok (0, s4, w4, rest4, evs0 ++ .receive_packet_to_buffer st :: evs4)

/-! ## Observations on states and event lists -/

/-- No conversion resource is held: `mSwsCtx`, `mRGBFrame` and `mRGBFrameBuffer` are all `NULL`. -/
def allNull (s : MediaSession) : Prop :=
  s.mSwsCtx = none ∧ s.mRGBFrame = none ∧ s.mRGBFrameBuffer = none

/-- All three conversion resources are held. -/
def allSet (s : MediaSession) : Prop :=
  s.mSwsCtx.isSome = true ∧ s.mRGBFrame.isSome = true ∧ s.mRGBFrameBuffer.isSome = true

/-- The all-or-nothing invariant on `(mSwsCtx, mRGBFrame, mRGBFrameBuffer)`. -/
def ConvInv (s : MediaSession) : Prop :=
  allNull s ∨ allSet s

instance (s : MediaSession) : Decidable (allNull s) :=
  inferInstanceAs (Decidable (_ ∧ _))

instance (s : MediaSession) : Decidable (allSet s) :=
  inferInstanceAs (Decidable (_ ∧ _))

instance (s : MediaSession) : Decidable (ConvInv s) :=
  inferInstanceAs (Decidable (_ ∨ _))

/-- The decoder objects that `decodeFrame` and `displayFrame` read through are allocated:
`mCodecCtx` and `mAvFrame` are non-null, as after an `init` whose allocations succeeded. -/
def Ready (s : MediaSession) : Prop :=
  s.mCodecCtx.isSome = true ∧ s.mAvFrame.isSome = true

instance (s : MediaSession) : Decidable (Ready s) :=
  inferInstanceAs (Decidable (_ ∧ _))

/-- A resource handed out by an allocator. -/
inductive Resource where
  /-- a context returned by `sws_getContext` -/
  | swsContext (ctx : Nat)
  /-- memory returned by `av_frame_alloc` or `av_malloc` -/
  | memory (ptr : Nat)
  deriving DecidableEq, Repr

/-- The resources acquired by the calls of an event list, in order. -/
def acquired : List Event → List Resource
  | [] => []
  | .sws_getContext _ _ _ (some ctx) :: evs => .swsContext ctx :: acquired evs
  | .av_frame_alloc (some p) :: evs => .memory p :: acquired evs
  | .av_malloc (some p) :: evs => .memory p :: acquired evs
  | _ :: evs => acquired evs

/-- The resources released by the calls of an event list, in order. -/
def released : List Event → List Resource
  | [] => []
  | .sws_freeContext ctx :: evs => .swsContext ctx :: released evs
  | .av_free p :: evs => .memory p :: released evs
  | _ :: evs => released evs

/-- Number of calls of `sws_getContext` in an event list. -/
def contextAllocations : List Event → Nat
  | [] => 0
  | .sws_getContext _ _ _ _ :: evs => contextAllocations evs + 1
  | _ :: evs => contextAllocations evs

/-- The arguments of the calls of `decodeFrame` in an event list, in order. -/
def decodeCalls : List Event → List (Nat × Int)
  | [] => []
  | .decodeFrame buffer size :: evs => (buffer, size) :: decodeCalls evs
  | _ :: evs => decodeCalls evs

/-- The arguments of the calls of `displayFrame` in an event list, in order. -/
def displayCalls : List Event → List (Int × Int)
  | [] => []
  | .displayFrame width height :: evs => (width, height) :: displayCalls evs
  | _ :: evs => displayCalls evs

/-- The statuses returned by the calls of `avcodec_receive_frame` in an event list, in order. -/
def frameRequests : List Event → List Int
  | [] => []
  | .avcodec_receive_frame status :: evs => status :: frameRequests evs
  | _ :: evs => frameRequests evs

/-- Number of calls of `processPacket` in an event list. -/
def processCalls : List Event → Nat
  | [] => 0
  | .processPacket :: evs => processCalls evs + 1
  | _ :: evs => processCalls evs

/-- The byte `cPackType` lies outside the fields that `processPacket` reads: the outer length,
the inner length and the media type. -/
def packTypeApart (C : Config) : Prop :=
  (C.posPackType < C.posLength ∨ C.posLength + 4 ≤ C.posPackType) ∧
  (C.posPackType < C.posData + C.posMediaLength ∨
    C.posData + C.posMediaLength + 4 ≤ C.posPackType) ∧
  C.posPackType ≠ C.posData + C.posMediaType

instance (C : Config) : Decidable (packTypeApart C) :=
  inferInstanceAs (Decidable (_ ∧ _))

/-- A sequence of calls of `allocateConversionCtx`, each with its allocator answers and its
arguments `(pix_fmt, width, height)`. -/
def allocateConversionCtxSeq (s : MediaSession) :
    List (AllocAnswers × Int × Int × Int) → Except Halt (MediaSession × List Event)
  | [] => .ok (s, [])
  | (a, pix_fmt, width, height) :: calls =>
    match allocateConversionCtx s a pix_fmt width height with
    | .error e => .error e
    | .ok (_, s1, evs1) =>
      match allocateConversionCtxSeq s1 calls with
      | .error e => .error e
      | .ok (s2, evs2) => .ok (s2, evs1 ++ evs2)

/-- A sequence of calls of `displayFrame`, one per frame answer, each made as `decodeFrame`
makes it: on `mAvFrame`, with the width and height of the codec context. -/
def displayFrameSeq (s : MediaSession) : List FrameAnswer → Except Halt (MediaSession × List Event)
  | [] => .ok (s, [])
  | f :: fs =>
    match displayFrame s s.mAvFrame f.width f.height f with
    | .error e => .error e
    | .ok (_, s1, evs1) =>
      match displayFrameSeq s1 fs with
      | .error e => .error e
      | .ok (s2, evs2) => .ok (s2, evs1 ++ evs2)

/-- A run did not fail an assertion, and if it completed, its final session holds a property. -/
def Safe {α : Type} (final : α → MediaSession) (P : MediaSession → Prop) :
    Except Halt α → Prop
  | .error e => e ≠ .assertFailed
  | .ok r => P (final r)

/-! ## Sample inputs, in the layout of `wireConfig` -/

/-- A frame answer with status 0 for which every allocation succeeds. -/
def frameOk (ctx : Nat) : FrameAnswer :=
  ⟨0, 0, 640, 480, ⟨some ctx, some (ctx + 1), some (ctx + 2)⟩, 0⟩

/-- Big-endian bytes of a 32-bit value. -/
def be32 (n : Nat) : List Nat :=
  [n / 2 ^ 24 % 256, n / 2 ^ 16 % 256, n / 2 ^ 8 % 256, n % 256]

/-- A packet in the layout of `wireConfig`: `packType`, outer `length`, `innerLength`,
`channelId`, `mediaKind`, then the remaining bytes. -/
def wirePacket (packType length innerLength channelId mediaKind : Nat) (bytes : List Nat) :
    Buffer :=
  packType :: (be32 length ++ be32 innerLength ++ [channelId, mediaKind] ++ bytes)

/-- The answer "need more input" of `avcodec_receive_frame` on a Linux build. -/
def needInput : FrameAnswer :=
  ⟨-11, 0, 640, 480, ⟨none, none, none⟩, 0⟩

/-- Answers of a successful `init`. -/
def initOk : InitAnswers :=
  ⟨some 1, some 2, some 3, 0⟩

/-- The session after the constructor and a successful `init`: `mCodec`, `mCodecCtx` and
`mAvFrame` are set. -/
def readySession : MediaSession :=
  (init (MediaSession.new [] 0 none) initOk).2.1

/-- A frame answer with status 0 for a frame of 320 by 240. -/
def frameSmall : FrameAnswer :=
  ⟨0, 0, 320, 240, ⟨some 7, some 8, some 9⟩, 0⟩

/-! ## Lemmas on the conversion resources and on event lists -/

/-- With a context already held, `allocateConversionCtx` returns at once. -/
theorem allocateConversionCtx_held (s : MediaSession) (a : AllocAnswers)
    (pix_fmt width height : Int) (h : s.mSwsCtx.isSome = true) :
    allocateConversionCtx s a pix_fmt width height = .ok (0, s, []) := by
  simp [allocateConversionCtx, h]

/-- What one call of `allocateConversionCtx` does from a state that holds the invariant. -/
theorem allocateConversionCtx_step (s : MediaSession) (a : AllocAnswers)
    (pix_fmt width height : Int) (h : ConvInv s) :
    ∃ status s1 evs, allocateConversionCtx s a pix_fmt width height = .ok (status, s1, evs) ∧
      ConvInv s1 ∧
      (status = 0 ∨ status = -1) ∧
      (status = -1 → allNull s1 ∧ released evs = acquired evs) ∧
      (status = 0 → allSet s1) ∧
      (s.mSwsCtx = none → (status = -1 ↔ (a.sws = none ∨ a.frame = none ∨ a.buffer = none))) := by
  rcases s with ⟨run, cd, cx, fr, sws, rgb, rbuf, buf, ps, pd⟩
  rcases a with ⟨a1, a2, a3⟩
  rcases h with h | h
  · obtain ⟨h1, h2, h3⟩ := h
    simp only at h1 h2 h3
    subst h1 h2 h3
    cases a1 <;> cases a2 <;> cases a3 <;>
      refine ⟨_, _, _, rfl, ?_⟩ <;>
      simp [ConvInv, allNull, allSet, released, acquired]
  · refine ⟨0, _, [], allocateConversionCtx_held _ _ _ _ _ h.1, Or.inr h, Or.inl rfl, ?_,
      fun _ => h, ?_⟩
    · intro h0
      exact absurd h0 (by decide)
    · intro hn
      have := h.1
      simp only at hn this
      rw [hn] at this
      exact absurd this (by decide)

/-- A sequence of calls from a state that holds the invariant fails no assertion and ends in
such a state. -/
theorem allocateConversionCtxSeq_ok (calls : List (AllocAnswers × Int × Int × Int)) :
    ∀ s : MediaSession, ConvInv s →
      ∃ s1 evs, allocateConversionCtxSeq s calls = .ok (s1, evs) ∧ ConvInv s1 := by
  induction calls with
  | nil => intro s h; exact ⟨s, [], rfl, h⟩
  | cons c calls ih =>
    intro s h
    obtain ⟨a, pix_fmt, width, height⟩ := c
    obtain ⟨status, s1, evs1, h1, hinv, -⟩ := allocateConversionCtx_step s a pix_fmt width height h
    obtain ⟨s2, evs2, h2, hinv2⟩ := ih s1 hinv
    exact ⟨s2, evs1 ++ evs2, by simp [allocateConversionCtxSeq, h1, h2], hinv2⟩

/-- The constructor's state holds the invariant: the three fields are null. -/
theorem convInv_new (buf : Buffer) (pktSize : Int) (pktData : Option Nat) :
    ConvInv (MediaSession.new buf pktSize pktData) :=
  Or.inl ⟨rfl, rfl, rfl⟩

/-- The observations on event lists distribute over concatenation. -/
theorem displayCalls_append (xs ys : List Event) :
    displayCalls (xs ++ ys) = displayCalls xs ++ displayCalls ys := by
  induction xs with
  | nil => rfl
  | cons e xs ih => cases e <;> simp [displayCalls, ih]

theorem decodeCalls_append (xs ys : List Event) :
    decodeCalls (xs ++ ys) = decodeCalls xs ++ decodeCalls ys := by
  induction xs with
  | nil => rfl
  | cons e xs ih => cases e <;> simp [decodeCalls, ih]

theorem frameRequests_append (xs ys : List Event) :
    frameRequests (xs ++ ys) = frameRequests xs ++ frameRequests ys := by
  induction xs with
  | nil => rfl
  | cons e xs ih => cases e <;> simp [frameRequests, ih]

theorem processCalls_append (xs ys : List Event) :
    processCalls (xs ++ ys) = processCalls xs + processCalls ys := by
  induction xs with
  | nil => simp [processCalls]
  | cons e xs ih => cases e <;> simp [processCalls, ih]; omega

theorem contextAllocations_append (xs ys : List Event) :
    contextAllocations (xs ++ ys) = contextAllocations xs + contextAllocations ys := by
  induction xs with
  | nil => simp [contextAllocations]
  | cons e xs ih => cases e <;> simp [contextAllocations, ih]; omega

theorem acquired_append (xs ys : List Event) :
    acquired (xs ++ ys) = acquired xs ++ acquired ys := by
  induction xs with
  | nil => rfl
  | cons e xs ih =>
    cases e with
    | sws_getContext p w h r => cases r <;> simp [acquired, ih]
    | av_frame_alloc r => cases r <;> simp [acquired, ih]
    | av_malloc r => cases r <;> simp [acquired, ih]
    | _ => simp [acquired, ih]

theorem released_append (xs ys : List Event) :
    released (xs ++ ys) = released xs ++ released ys := by
  induction xs with
  | nil => rfl
  | cons e xs ih => cases e <;> simp [released, ih]

/-- The events of `allocateConversionCtx` are allocator calls only. -/
theorem allocateConversionCtx_events (s s1 : MediaSession) (a : AllocAnswers)
    (pix_fmt width height status : Int) (evs : List Event)
    (h : allocateConversionCtx s a pix_fmt width height = .ok (status, s1, evs)) :
    displayCalls evs = [] ∧ decodeCalls evs = [] ∧ frameRequests evs = [] ∧
      processCalls evs = 0 := by
  unfold allocateConversionCtx at h
  split at h
  · cases h; exact ⟨rfl, rfl, rfl, rfl⟩
  · split at h
    · cases h
    · split at h
      · cases h; exact ⟨rfl, rfl, rfl, rfl⟩
      · split at h
        · cases h; exact ⟨rfl, rfl, rfl, rfl⟩
        · split at h <;> cases h <;> exact ⟨rfl, rfl, rfl, rfl⟩

/-- `allocateConversionCtx` writes the three conversion fields only. -/
theorem allocateConversionCtx_keeps (s s1 : MediaSession) (a : AllocAnswers)
    (pix_fmt width height status : Int) (evs : List Event)
    (h : allocateConversionCtx s a pix_fmt width height = .ok (status, s1, evs)) :
    s1.mCodecCtx = s.mCodecCtx ∧ s1.mAvFrame = s.mAvFrame := by
  unfold allocateConversionCtx at h
  split at h
  · cases h; exact ⟨rfl, rfl⟩
  · split at h
    · cases h
    · split at h
      · cases h; exact ⟨rfl, rfl⟩
      · split at h
        · cases h; exact ⟨rfl, rfl⟩
        · split at h <;> cases h <;> exact ⟨rfl, rfl⟩

/-- A pointer that is set is not `NULL`. -/
theorem ne_none_of_isSome (p : Option Nat) (h : p.isSome = true) : ¬ p = none := by
  intro hn
  rw [hn] at h
  exact absurd h (by decide)

/-- One call of `displayFrame` on `mAvFrame`, from a state that holds the invariant and whose
decoder objects are allocated. -/
theorem displayFrame_step (s : MediaSession) (f : FrameAnswer) (width height : Int)
    (h : ConvInv s) (hr : Ready s) :
    ∃ status s1 evs, displayFrame s s.mAvFrame width height f = .ok (status, s1, evs) ∧
      ConvInv s1 ∧ Ready s1 ∧
      displayCalls evs = [(width, height)] ∧ decodeCalls evs = [] ∧
      frameRequests evs = [] ∧ processCalls evs = 0 := by
  obtain ⟨st, s1, evs, h1, hinv, hst, -, hset, -⟩ :=
    allocateConversionCtx_step s f.alloc f.pix_fmt width height h
  obtain ⟨e1, e2, e3, e4⟩ := allocateConversionCtx_events _ _ _ _ _ _ _ _ h1
  obtain ⟨k1, k2⟩ := allocateConversionCtx_keeps _ _ _ _ _ _ _ _ h1
  have hr1 : Ready s1 := by
    unfold Ready
    rw [k1, k2]
    exact hr
  have hctx := ne_none_of_isSome _ hr.1
  have hfr := ne_none_of_isSome _ hr.2
  unfold displayFrame
  rw [if_neg hctx, h1]
  dsimp only
  rcases hst with hst | hst
  · subst hst
    have hrgb := ne_none_of_isSome _ (hset rfl).2.1
    have hno : ¬ (s.mAvFrame = none ∨ s1.mRGBFrame = none) := by
      rintro (x | x)
      · exact hfr x
      · exact hrgb x
    rw [if_neg (by decide : ¬ (0 : Int) < 0), if_neg hno]
    by_cases hc : f.scale < 0
    · rw [if_pos hc]
      refine ⟨_, _, _, rfl, hinv, hr1, ?_⟩
      simp [displayCalls, decodeCalls, frameRequests, processCalls, e1, e2, e3, e4,
        displayCalls_append, decodeCalls_append, frameRequests_append, processCalls_append]
    · rw [if_neg hc]
      refine ⟨_, _, _, rfl, hinv, hr1, ?_⟩
      simp [displayCalls, decodeCalls, frameRequests, processCalls, e1, e2, e3, e4,
        displayCalls_append, decodeCalls_append, frameRequests_append, processCalls_append]
  · subst hst
    rw [if_pos (by decide : (-1 : Int) < 0)]
    refine ⟨_, _, _, rfl, hinv, hr1, ?_⟩
    simp [displayCalls, decodeCalls, frameRequests, processCalls, e1, e2, e3, e4]

/-- The drain loop of `decodeFrame` on a run of zero statuses followed by a non-zero one. -/
theorem decodeFrameLoop_drain (C : Config) (hE : C.AVERROR_EAGAIN ≠ 0) (hF : C.AVERROR_EOF ≠ 0)
    (f : FrameAnswer) (hf : f.status ≠ 0) (rest : List FrameAnswer) (zeros : List FrameAnswer) :
    (∀ z ∈ zeros, z.status = 0) → ∀ s : MediaSession, ConvInv s → Ready s →
      ∃ s1 evs, decodeFrameLoop C s (zeros ++ f :: rest) =
          .ok ((if f.status = C.AVERROR_EAGAIN ∨ f.status = C.AVERROR_EOF then 0 else -1),
            s1, rest, evs) ∧
        ConvInv s1 ∧ Ready s1 ∧
        displayCalls evs = zeros.map (fun z => (z.width, z.height)) ∧
        frameRequests evs = zeros.map (fun z => z.status) ++ [f.status] ∧
        decodeCalls evs = [] ∧ processCalls evs = 0 := by
  induction zeros with
  | nil =>
    intro _ s hs hr
    by_cases hc : f.status = C.AVERROR_EAGAIN ∨ f.status = C.AVERROR_EOF
    · refine ⟨s, [.avcodec_receive_frame f.status], ?_, hs, hr, rfl, rfl, rfl, rfl⟩
      simp only [List.nil_append, decodeFrameLoop, hc, if_true]
    · refine ⟨s, [.avcodec_receive_frame f.status], ?_, hs, hr, rfl, rfl, rfl, rfl⟩
      simp only [List.nil_append, decodeFrameLoop, hc, if_false, hf, ne_eq,
        not_false_eq_true, if_true]
  | cons z zeros ih =>
    intro hz s hs hr
    have hz0 : z.status = 0 := hz z (List.mem_cons_self _ _)
    have hzs : ∀ y ∈ zeros, y.status = 0 := fun y hy => hz y (List.mem_cons_of_mem _ hy)
    obtain ⟨st, s1, evs1, h1, hinv1, hr1, d1, c1, r1, p1⟩ :=
      displayFrame_step s z z.width z.height hs hr
    obtain ⟨s2, evs2, h2, hinv2, hr2, d2, r2, c2, p2⟩ := ih hzs s1 hinv1 hr1
    have hn : ¬ (z.status = C.AVERROR_EAGAIN ∨ z.status = C.AVERROR_EOF) := by
      rw [hz0]
      rintro (h | h)
      · exact hE h.symm
      · exact hF h.symm
    refine ⟨s2, .avcodec_receive_frame z.status :: evs1 ++ evs2, ?_, hinv2, hr2, ?_⟩
    · show decodeFrameLoop C s (z :: (zeros ++ f :: rest)) = _
      rw [decodeFrameLoop, if_neg hn, if_neg (not_not.mpr hz0),
        if_neg (ne_none_of_isSome _ hr.1)]
      simp only [h1, h2]
    · simp [displayCalls, decodeCalls, frameRequests, processCalls, displayCalls_append,
        decodeCalls_append, frameRequests_append, processCalls_append, d1, c1, r1, p1, d2, r2, c2,
        p2, hz0]

/-- A successful call of `allocateConversionCtx` leaves a context held; when none was held
before, it called `sws_getContext` once and released nothing. -/
theorem allocateConversionCtx_success (s s1 : MediaSession) (a : AllocAnswers)
    (pix_fmt width height : Int) (evs : List Event)
    (h : allocateConversionCtx s a pix_fmt width height = .ok (0, s1, evs)) :
    s1.mSwsCtx.isSome = true ∧
      (s.mSwsCtx = none → contextAllocations evs = 1 ∧ released evs = []) := by
  unfold allocateConversionCtx at h
  split at h
  · next hh =>
    cases h
    refine ⟨hh, fun hn => ?_⟩
    rw [hn] at hh
    exact absurd hh (by decide)
  · split at h
    · cases h
    · split at h
      · cases h
      · split at h
        · cases h
        · split at h
          · cases h
          · cases h
            exact ⟨rfl, fun _ => ⟨rfl, rfl⟩⟩

/-- With the conversion resources held and the decoder objects allocated, `displayFrame`
changes nothing and calls no allocator. -/
theorem displayFrame_held (s : MediaSession) (f : FrameAnswer) (width height : Int)
    (h : allSet s) (hr : Ready s) :
    ∃ status evs, displayFrame s s.mAvFrame width height f = .ok (status, s, evs) ∧
      acquired evs = [] ∧ released evs = [] ∧ contextAllocations evs = 0 ∧
      displayCalls evs = [(width, height)] := by
  have hno : ¬ (s.mAvFrame = none ∨ s.mRGBFrame = none) := by
    rintro (x | x)
    · exact ne_none_of_isSome _ hr.2 x
    · exact ne_none_of_isSome _ h.2.1 x
  unfold displayFrame
  rw [if_neg (ne_none_of_isSome _ hr.1),
    allocateConversionCtx_held s f.alloc f.pix_fmt width height h.1]
  dsimp only
  rw [if_neg (by decide : ¬ (0 : Int) < 0), if_neg hno]
  by_cases hc : f.scale < 0
  · rw [if_pos hc]
    exact ⟨-1, _, rfl, rfl, rfl, rfl, rfl⟩
  · rw [if_neg hc]
    exact ⟨0, _, rfl, rfl, rfl, rfl, rfl⟩

/-- With the conversion resources held and the decoder objects allocated, a sequence of
`displayFrame` calls changes nothing and calls no allocator. -/
theorem displayFrameSeq_held (fs : List FrameAnswer) (s : MediaSession)
    (h : allSet s) (hr : Ready s) :
    ∃ evs, displayFrameSeq s fs = .ok (s, evs) ∧ acquired evs = [] ∧ released evs = [] ∧
      contextAllocations evs = 0 ∧
      displayCalls evs = fs.map (fun f => (f.width, f.height)) := by
  induction fs with
  | nil => exact ⟨[], rfl, rfl, rfl, rfl, rfl⟩
  | cons f fs ih =>
    obtain ⟨st, evs1, h1, a1, r1, c1, d1⟩ := displayFrame_held s f f.width f.height h hr
    obtain ⟨evs2, h2, a2, r2, c2, d2⟩ := ih
    refine ⟨evs1 ++ evs2, by simp [displayFrameSeq, h1, h2], ?_, ?_, ?_, ?_⟩
    · rw [acquired_append, a1, a2]; rfl
    · rw [released_append, r1, r2]; rfl
    · rw [contextAllocations_append, c1, c2]
    · rw [displayCalls_append, d1, d2]; rfl

/-- `displayFrame` fails no assertion and keeps the invariant. -/
theorem displayFrame_safe (s : MediaSession) (frame : Option Nat) (width height : Int)
    (f : FrameAnswer) (hs : ConvInv s) :
    Safe (fun r => r.2.1) ConvInv (displayFrame s frame width height f) := by
  obtain ⟨st, s1, evs, h1, hinv, -⟩ :=
    allocateConversionCtx_step s f.alloc f.pix_fmt width height hs
  unfold displayFrame
  split
  · exact (by decide : Halt.nullDeref ≠ Halt.assertFailed)
  · rw [h1]
    dsimp only
    split
    · exact hinv
    · split
      · exact (by decide : Halt.nullDeref ≠ Halt.assertFailed)
      · split <;> exact hinv

/-- The drain loop fails no assertion and keeps the invariant. -/
theorem decodeFrameLoop_safe (C : Config) (frames : List FrameAnswer) :
    ∀ s : MediaSession, ConvInv s →
      Safe (fun r => r.2.1) ConvInv (decodeFrameLoop C s frames) := by
  induction frames with
  | nil => intro s _; exact (by decide : Halt.blocked ≠ Halt.assertFailed)
  | cons f frames ih =>
    intro s hs
    rw [decodeFrameLoop]
    split
    · exact hs
    · split
      · exact hs
      · split
        · exact (by decide : Halt.nullDeref ≠ Halt.assertFailed)
        · have h1 := displayFrame_safe s s.mAvFrame f.width f.height f hs
          cases hd : displayFrame s s.mAvFrame f.width f.height f with
          | error e => rw [hd] at h1; exact h1
          | ok r =>
            rw [hd] at h1
            obtain ⟨st, s1, evs1⟩ := r
            dsimp only
            have h2 := ih s1 h1
            cases hl : decodeFrameLoop C s1 frames with
            | error e => rw [hl] at h2; exact h2
            | ok r => rw [hl] at h2; exact h2

/-- `decodeFrame` fails no assertion and keeps the invariant. -/
theorem decodeFrame_safe (C : Config) (s : MediaSession) (w : Codec) (buffer : Nat)
    (size : Int) (hs : ConvInv s) :
    Safe (fun r => r.2.1) ConvInv (decodeFrame C s w buffer size) := by
  unfold decodeFrame
  dsimp only
  split
  · exact (by decide : Halt.blocked ≠ Halt.assertFailed)
  · split
    · exact hs
    · have h2 := decodeFrameLoop_safe C w.frames
        { s with mAvPktSize := size, mAvPktData := some buffer } hs
      cases hl : decodeFrameLoop C { s with mAvPktSize := size, mAvPktData := some buffer }
          w.frames with
      | error e => rw [hl] at h2; exact h2
      | ok r => rw [hl] at h2; exact h2

/-- `processPacket` fails no assertion and keeps the invariant. -/
theorem processPacket_safe (C : Config) (s : MediaSession) (w : Codec) (packet : Buffer)
    (hs : ConvInv s) :
    Safe (fun r => r.2.1) ConvInv (processPacket C s w packet) := by
  unfold processPacket
  split
  · exact hs
  · split
    · have h2 := decodeFrame_safe C s w (framedata C) (intOfUInt32 (uiMediaPackLen C packet)) hs
      cases hl : decodeFrame C s w (framedata C) (intOfUInt32 (uiMediaPackLen C packet)) with
      | error e => rw [hl] at h2; exact h2
      | ok r => rw [hl] at h2; exact h2
    · exact hs

/-- The loop of `start` fails no assertion and keeps the invariant. -/
theorem startLoop_safe (C : Config) (recv : List (Int × Buffer)) :
    ∀ (s : MediaSession) (w : Codec), ConvInv s →
      Safe (fun r => r.1) ConvInv (startLoop C s w recv) := by
  induction recv with
  | nil =>
    intro s w hs
    rw [startLoop]
    split
    · exact hs
    · have h2 := processPacket_safe C s w s.tmpRecvBuf hs
      cases hl : processPacket C s w s.tmpRecvBuf with
      | error e => rw [hl] at h2; exact h2
      | ok r =>
        rw [hl] at h2
        obtain ⟨st, s1, w1, evs1⟩ := r
        dsimp only
        split
        · exact h2
        · exact (by decide : Halt.blocked ≠ Halt.assertFailed)
  | cons x recv ih =>
    intro s w hs
    obtain ⟨st0, buf⟩ := x
    rw [startLoop]
    split
    · exact hs
    · have h2 := processPacket_safe C s w s.tmpRecvBuf hs
      cases hl : processPacket C s w s.tmpRecvBuf with
      | error e => rw [hl] at h2; exact h2
      | ok r =>
        rw [hl] at h2
        obtain ⟨st, s1, w1, evs1⟩ := r
        dsimp only
        split
        · exact h2
        · split
          · exact h2
          · have h3 := ih { s1 with tmpRecvBuf := buf } w1 h2
            cases hl3 : startLoop C { s1 with tmpRecvBuf := buf } w1 recv with
            | error e => rw [hl3] at h3; exact h3
            | ok r3 => rw [hl3] at h3; exact h3

/-- `init` leaves the conversion resources alone. -/
theorem init_convInv (s : MediaSession) (a : InitAnswers) (hs : ConvInv s) :
    ConvInv (init s a).2.1 := by
  unfold init
  split
  · exact hs
  · dsimp only
    split <;> exact hs

/-- `start` fails no assertion and keeps the invariant. -/
theorem start_safe (C : Config) (s : MediaSession) (a : InitAnswers) (w : Codec)
    (recv : List (Int × Buffer)) (hs : ConvInv s) :
    Safe (fun r => r.2.1) ConvInv (start C s a w recv) := by
  have hi := init_convInv s a hs
  unfold start
  rcases hinit : init s a with ⟨status, s1, evs0⟩
  rw [hinit] at hi
  dsimp only at hi ⊢
  split
  · exact hi
  · cases recv with
    | nil => exact (by decide : Halt.blocked ≠ Halt.assertFailed)
    | cons x rest =>
      obtain ⟨st, buf⟩ := x
      dsimp only
      split
      · exact hi
      · have h3 := startLoop_safe C rest { s1 with tmpRecvBuf := buf, isRunning := true } w hi
        cases hl3 : startLoop C { s1 with tmpRecvBuf := buf, isRunning := true } w rest with
        | error e => rw [hl3] at h3; exact h3
        | ok r3 => rw [hl3] at h3; exact h3

/-! ## Conversion resources -/

/-- C9: `allocateConversionCtx` keeps the all-or-nothing invariant on
`(mSwsCtx, mRGBFrame, mRGBFrameBuffer)`. From a state where the three are all null or all
non-null, a call returns (the assertion does not fail) with status 0 or -1 and ends in such a
state; when no context is held, the status is -1 exactly when one of the three allocations
fails; with status -1 the three fields are null and the resources released are those acquired
during the call; with status 0 the three are non-null. Hence the assertion fails on no
sequence of calls from the constructor's state, and on no run of `start` from that state. -/
theorem allocateConversionCtx_all_or_nothing (s : MediaSession) (a : AllocAnswers)
    (pix_fmt width height : Int) (h : ConvInv s) (buf : Buffer) (pktSize : Int)
    (pktData : Option Nat) (calls : List (AllocAnswers × Int × Int × Int))
    (C : Config) (a0 : InitAnswers) (w : Codec) (recv : List (Int × Buffer)) :
    (∃ status s1 evs, allocateConversionCtx s a pix_fmt width height = .ok (status, s1, evs) ∧
      ConvInv s1 ∧
      (status = 0 ∨ status = -1) ∧
      (status = -1 → allNull s1 ∧ released evs = acquired evs) ∧
      (status = 0 → allSet s1) ∧
      (s.mSwsCtx = none → (status = -1 ↔ (a.sws = none ∨ a.frame = none ∨ a.buffer = none)))) ∧
    (∃ s2 evs2, allocateConversionCtxSeq (MediaSession.new buf pktSize pktData) calls =
        .ok (s2, evs2) ∧ ConvInv s2) ∧
    start C (MediaSession.new buf pktSize pktData) a0 w recv ≠ .error .assertFailed := by
  refine ⟨allocateConversionCtx_step s a pix_fmt width height h,
    allocateConversionCtxSeq_ok calls _ (convInv_new buf pktSize pktData), ?_⟩
  intro hfail
  have hsafe := start_safe C _ a0 w recv (convInv_new buf pktSize pktData)
  rw [hfail] at hsafe
  have hne : Halt.assertFailed ≠ Halt.assertFailed := hsafe
  exact hne rfl

/-- Witness of C9: the buffer allocation fails in the constructor's state; a sequence of three
calls of which the second fails at the frame allocation; a run of `start` on two packets. -/
theorem allocateConversionCtx_all_or_nothing_witness :
    ConvInv (MediaSession.new [] 0 none) ∧
    ((∃ status s1 evs, allocateConversionCtx (MediaSession.new [] 0 none)
          ⟨some 1, some 2, none⟩ 0 640 480 = .ok (status, s1, evs) ∧
        ConvInv s1 ∧
        (status = 0 ∨ status = -1) ∧
        (status = -1 → allNull s1 ∧ released evs = acquired evs) ∧
        (status = 0 → allSet s1) ∧
        ((MediaSession.new [] 0 none).mSwsCtx = none →
          (status = -1 ↔ ((⟨some 1, some 2, none⟩ : AllocAnswers).sws = none ∨
            (⟨some 1, some 2, none⟩ : AllocAnswers).frame = none ∨
            (⟨some 1, some 2, none⟩ : AllocAnswers).buffer = none)))) ∧
      (∃ s2 evs2, allocateConversionCtxSeq (MediaSession.new [] 0 none)
          [(⟨none, none, none⟩, 0, 640, 480), (⟨some 1, none, some 3⟩, 0, 640, 480),
           (⟨some 4, some 5, some 6⟩, 0, 640, 480)] = .ok (s2, evs2) ∧ ConvInv s2) ∧
      start wireConfig (MediaSession.new [] 0 none) initOk ⟨[0, 0], [frameOk 1, needInput]⟩
          [(0, wirePacket 0 16 5 0 0 [1, 2, 3, 4, 5]), (-1, [])] ≠ .error .assertFailed) :=
  ⟨by decide,
    allocateConversionCtx_all_or_nothing (MediaSession.new [] 0 none) ⟨some 1, some 2, none⟩
      0 640 480 (by decide) [] 0 none
      [(⟨none, none, none⟩, 0, 640, 480), (⟨some 1, none, some 3⟩, 0, 640, 480),
       (⟨some 4, some 5, some 6⟩, 0, 640, 480)]
      wireConfig initOk ⟨[0, 0], [frameOk 1, needInput]⟩
      [(0, wirePacket 0 16 5 0 0 [1, 2, 3, 4, 5]), (-1, [])]⟩

/-- C10: once a call of `allocateConversionCtx` has returned 0 (ending in state `s1`), every
later call, whatever the allocators would answer and whatever its arguments, in particular the
same `(pix_fmt, width, height)`, returns 0, leaves the state unchanged and calls nothing. In
a session that holds the all-or-nothing invariant and whose decoder objects are allocated
(as `displayFrame` needs, which reads through `mCodecCtx` and the frame), every sequence of
`displayFrame` calls from `s1` completes, leaves the state unchanged, acquires and releases
nothing and never calls `sws_getContext`; and every sequence of `displayFrame` calls that
starts with the call making that successful allocation, whatever happened before it, displays
each frame and calls `sws_getContext` exactly once. -/
theorem allocateConversionCtx_reuse (s s1 : MediaSession) (a : AllocAnswers)
    (pix_fmt width height : Int) (evs : List Event)
    (h : allocateConversionCtx s a pix_fmt width height = .ok (0, s1, evs)) :
    (∀ (a2 : AllocAnswers) (p w h2 : Int),
      allocateConversionCtx s1 a2 p w h2 = .ok (0, s1, [])) ∧
    (ConvInv s → Ready s → ∀ fs : List FrameAnswer,
      ∃ evs2, displayFrameSeq s1 fs = .ok (s1, evs2) ∧
        acquired evs2 = [] ∧ released evs2 = [] ∧ contextAllocations evs2 = 0 ∧
        displayCalls evs2 = fs.map (fun f => (f.width, f.height))) ∧
    (ConvInv s → Ready s → ∀ (f : FrameAnswer) (fs : List FrameAnswer),
      s.mSwsCtx = none → f.alloc = a → f.pix_fmt = pix_fmt → f.width = width →
      f.height = height →
      ∃ evsAll, displayFrameSeq s (f :: fs) = .ok (s1, evsAll) ∧
        contextAllocations evsAll = 1 ∧ released evsAll = [] ∧
        displayCalls evsAll = (f :: fs).map (fun f => (f.width, f.height))) := by
  obtain ⟨hheld, hfirst⟩ := allocateConversionCtx_success s s1 a pix_fmt width height evs h
  have hready : ConvInv s → Ready s → allSet s1 ∧ Ready s1 := by
    intro hinv hr
    obtain ⟨st, s2, evs2, h2, -, -, -, hset, -⟩ :=
      allocateConversionCtx_step s a pix_fmt width height hinv
    rw [h] at h2
    cases h2
    obtain ⟨k1, k2⟩ := allocateConversionCtx_keeps _ _ _ _ _ _ _ _ h
    refine ⟨hset rfl, ?_⟩
    unfold Ready
    rw [k1, k2]
    exact hr
  refine ⟨fun a2 p w h2 => allocateConversionCtx_held s1 a2 p w h2 hheld, ?_, ?_⟩
  · intro hinv hr fs
    obtain ⟨hset, hr1⟩ := hready hinv hr
    exact displayFrameSeq_held fs s1 hset hr1
  · intro hinv hr f fs hnone ha hp hw hh
    obtain ⟨hset, hr1⟩ := hready hinv hr
    obtain ⟨hc, hrel⟩ := hfirst hnone
    obtain ⟨e1, -, -, -⟩ := allocateConversionCtx_events _ _ _ _ _ _ _ _ h
    obtain ⟨evs2, h2, -, r2, c2, d2⟩ := displayFrameSeq_held fs s1 hset hr1
    obtain ⟨k1, k2⟩ := allocateConversionCtx_keeps _ _ _ _ _ _ _ _ h
    subst ha hp hw hh
    have hno : ¬ (s.mAvFrame = none ∨ s1.mRGBFrame = none) := by
      rintro (x | x)
      · exact ne_none_of_isSome _ hr.2 x
      · exact ne_none_of_isSome _ hset.2.1 x
    have hd : ∃ st evs1, displayFrame s s.mAvFrame f.width f.height f = .ok (st, s1, evs1) ∧
        contextAllocations evs1 = 1 ∧ released evs1 = [] ∧
        displayCalls evs1 = [(f.width, f.height)] := by
      unfold displayFrame
      rw [if_neg (ne_none_of_isSome _ hr.1), h]
      dsimp only
      rw [if_neg (by decide : ¬ (0 : Int) < 0), if_neg hno]
      by_cases hsc : f.scale < 0
      · rw [if_pos hsc]
        refine ⟨_, _, rfl, ?_, ?_, ?_⟩
        · simp [contextAllocations_append, contextAllocations, hc]
        · simp [released_append, released, hrel]
        · simp [displayCalls_append, displayCalls, e1]
      · rw [if_neg hsc]
        refine ⟨_, _, rfl, ?_, ?_, ?_⟩
        · simp [contextAllocations_append, contextAllocations, hc]
        · simp [released_append, released, hrel]
        · simp [displayCalls_append, displayCalls, e1]
    obtain ⟨st, evs1, hd1, c1, r1, d1⟩ := hd
    refine ⟨evs1 ++ evs2, by simp [displayFrameSeq, hd1, h2], ?_, ?_, ?_⟩
    · rw [contextAllocations_append, c1, c2]
    · rw [released_append, r1, r2]; rfl
    · rw [displayCalls_append, d1, d2]; rfl

/-- Witness of C10, in the session left by a successful `init`: the first of three displayed
frames allocates the context, the two that follow reuse it. The last part is the whole run,
event by event. -/
theorem allocateConversionCtx_reuse_witness :
    ConvInv readySession ∧ Ready readySession ∧
    allocateConversionCtx readySession ⟨some 1, some 2, some 3⟩ 0 640 480 =
      .ok (0, { readySession with
            mSwsCtx := some 1, mRGBFrame := some 2, mRGBFrameBuffer := some 3 },
          [.sws_getContext 0 640 480 (some 1), .av_frame_alloc (some 2), .av_malloc (some 3),
           .av_image_fill_arrays]) ∧
    (∃ evs2, displayFrameSeq { readySession with
            mSwsCtx := some 1, mRGBFrame := some 2, mRGBFrameBuffer := some 3 }
          [frameOk 4, frameSmall] =
        .ok ({ readySession with
            mSwsCtx := some 1, mRGBFrame := some 2, mRGBFrameBuffer := some 3 }, evs2) ∧
      acquired evs2 = [] ∧ released evs2 = [] ∧ contextAllocations evs2 = 0 ∧
      displayCalls evs2 = [(640, 480), (320, 240)]) ∧
    (∃ evsAll, displayFrameSeq readySession [frameOk 1, frameOk 4, frameSmall] =
        .ok ({ readySession with
            mSwsCtx := some 1, mRGBFrame := some 2, mRGBFrameBuffer := some 3 }, evsAll) ∧
      contextAllocations evsAll = 1 ∧ released evsAll = [] ∧
      displayCalls evsAll = [(640, 480), (640, 480), (320, 240)]) ∧
    displayFrameSeq readySession [frameOk 1, frameOk 4, frameSmall] =
      .ok ({ readySession with
          mSwsCtx := some 1, mRGBFrame := some 2, mRGBFrameBuffer := some 3 },
        [.displayFrame 640 480, .sws_getContext 0 640 480 (some 1), .av_frame_alloc (some 2),
         .av_malloc (some 3), .av_image_fill_arrays, .sws_scale 0, .imshow 640 480,
         .displayFrame 640 480, .sws_scale 0, .imshow 640 480,
         .displayFrame 320 240, .sws_scale 0, .imshow 320 240]) :=
  ⟨by decide, by decide, rfl,
    (allocateConversionCtx_reuse readySession _ ⟨some 1, some 2, some 3⟩ 0 640 480 _ rfl).2.1
      (by decide) (by decide) [frameOk 4, frameSmall],
    (allocateConversionCtx_reuse readySession _ ⟨some 1, some 2, some 3⟩ 0 640 480 _ rfl).2.2
      (by decide) (by decide) (frameOk 1) [frameOk 4, frameSmall] rfl rfl rfl rfl rfl, rfl⟩

/-! ## The drain loop of the decoder -/

/-- C7: `decodeFrame` over the statuses of `avcodec_receive_frame`, in a session whose decoder
objects are allocated (`mCodecCtx` and `mAvFrame` non-null, which the loop reads through) and
whose conversion resources hold the all-or-nothing invariant. After a successful
`avcodec_send_packet`, when the statuses are zeros followed by a first non-zero status, it
returns 0 if that status is `AVERROR(EAGAIN)` or `AVERROR_EOF` and -1 otherwise, calls
`displayFrame` once for each zero status, in order, requests exactly those frames and the one
with the non-zero status, and leaves the later answers unasked. When `avcodec_send_packet`
returns non-zero it returns -1 and requests no frame. -/
theorem decodeFrame_drain (C : Config) (hE : C.AVERROR_EAGAIN ≠ 0) (hF : C.AVERROR_EOF ≠ 0)
    (s : MediaSession) (hs : ConvInv s) (hr : Ready s) (buffer : Nat) (size : Int)
    (sendRest : List Int)
    (zeros : List FrameAnswer) (hz : ∀ z ∈ zeros, z.status = 0)
    (f : FrameAnswer) (hf : f.status ≠ 0) (rest : List FrameAnswer)
    (st : Int) (hst : st ≠ 0) (frames : List FrameAnswer) :
    (∃ s1 evs, decodeFrame C s ⟨0 :: sendRest, zeros ++ f :: rest⟩ buffer size =
        .ok ((if f.status = C.AVERROR_EAGAIN ∨ f.status = C.AVERROR_EOF then 0 else -1),
          s1, ⟨sendRest, rest⟩, evs) ∧
      displayCalls evs = zeros.map (fun z => (z.width, z.height)) ∧
      frameRequests evs = zeros.map (fun z => z.status) ++ [f.status]) ∧
    decodeFrame C s ⟨st :: sendRest, frames⟩ buffer size =
      .ok (-1, { s with mAvPktSize := size, mAvPktData := some buffer }, ⟨sendRest, frames⟩,
        [.decodeFrame buffer size, .avcodec_send_packet buffer size st]) := by
  constructor
  · obtain ⟨s1, evs, h1, -, -, d1, r1, -, -⟩ :=
      decodeFrameLoop_drain C hE hF f hf rest zeros hz
        { s with mAvPktSize := size, mAvPktData := some buffer } hs hr
    refine ⟨s1, .decodeFrame buffer size :: .avcodec_send_packet buffer size 0 :: evs, ?_, ?_, ?_⟩
    · simp only [decodeFrame, ne_eq, not_true_eq_false, if_false, h1]
    · simpa [displayCalls] using d1
    · simpa [frameRequests] using r1
  · simp only [decodeFrame, ne_eq, hst, not_false_eq_true, if_true]

/-- Witness of C7, in the session left by a successful `init`: two frames are delivered and
displayed in order, then the decoder asks for more input and the answer after it stays
unasked; a rejected packet requests no frame. The last part is the whole run of the first
call, event by event. -/
theorem decodeFrame_drain_witness :
    ConvInv readySession ∧ Ready readySession ∧
    ((∃ s1 evs, decodeFrame wireConfig readySession
        ⟨[0, 0], [frameOk 1, frameSmall, needInput, frameOk 4]⟩ 11 5 =
        .ok (0, s1, ⟨[0], [frameOk 4]⟩, evs) ∧
      displayCalls evs = [(640, 480), (320, 240)] ∧
      frameRequests evs = [0, 0, -11]) ∧
    decodeFrame wireConfig readySession ⟨[-22, 0], [frameOk 1]⟩ 11 5 =
      .ok (-1, { readySession with mAvPktSize := 5, mAvPktData := some 11 },
        ⟨[0], [frameOk 1]⟩, [.decodeFrame 11 5, .avcodec_send_packet 11 5 (-22)])) ∧
    decodeFrame wireConfig readySession
        ⟨[0, 0], [frameOk 1, frameSmall, needInput, frameOk 4]⟩ 11 5 =
      .ok (0,
        { readySession with
          mSwsCtx := some 1, mRGBFrame := some 2, mRGBFrameBuffer := some 3,
          mAvPktSize := 5, mAvPktData := some 11 },
        ⟨[0], [frameOk 4]⟩,
        [.decodeFrame 11 5, .avcodec_send_packet 11 5 0,
         .avcodec_receive_frame 0, .displayFrame 640 480,
         .sws_getContext 0 640 480 (some 1), .av_frame_alloc (some 2), .av_malloc (some 3),
         .av_image_fill_arrays, .sws_scale 0, .imshow 640 480,
         .avcodec_receive_frame 0, .displayFrame 320 240, .sws_scale 0, .imshow 320 240,
         .avcodec_receive_frame (-11)]) :=
  ⟨by decide, by decide,
    decodeFrame_drain wireConfig (by decide) (by decide) readySession (by decide) (by decide)
      11 5 [0] [frameOk 1, frameSmall] (by decide) needInput (by decide) [frameOk 4]
      (-22) (by decide) [frameOk 1], rfl⟩

/-! ## Packet framing -/

/-- `ntohl` of a field depends on its four bytes only. -/
theorem ntohlAt_congr (p q : Buffer) (i : Nat)
    (h : ∀ k, i ≤ k → k < i + 4 → byteAt p k = byteAt q k) :
    ntohlAt p i = ntohlAt q i := by
  unfold ntohlAt
  rw [h i (by omega) (by omega), h (i + 1) (by omega) (by omega),
    h (i + 2) (by omega) (by omega), h (i + 3) (by omega) (by omega)]

/-- The events of a completed `displayFrame` hold no call of `decodeFrame`. -/
theorem displayFrame_decodeCalls (s s1 : MediaSession) (frame : Option Nat)
    (width height : Int) (f : FrameAnswer) (status : Int)
    (evs : List Event) (h : displayFrame s frame width height f = .ok (status, s1, evs)) :
    decodeCalls evs = [] := by
  unfold displayFrame at h
  split at h
  · cases h
  · split at h
    · cases h
    · next st s2 evs2 h2 =>
      obtain ⟨-, e2, -, -⟩ := allocateConversionCtx_events _ _ _ _ _ _ _ _ h2
      split at h
      · cases h; simp [decodeCalls, e2]
      · split at h
        · cases h
        · split at h <;> cases h <;> simp [decodeCalls, decodeCalls_append, e2]

/-- The events of a completed drain loop hold no call of `decodeFrame`. -/
theorem decodeFrameLoop_decodeCalls (C : Config) (frames : List FrameAnswer) :
    ∀ (s s1 : MediaSession) (status : Int) (rest : List FrameAnswer) (evs : List Event),
      decodeFrameLoop C s frames = .ok (status, s1, rest, evs) → decodeCalls evs = [] := by
  induction frames with
  | nil => intro s s1 status rest evs h; cases h
  | cons f frames ih =>
    intro s s1 status rest evs h
    rw [decodeFrameLoop] at h
    split at h
    · cases h; rfl
    · split at h
      · cases h; rfl
      · split at h
        · cases h
        · split at h
          · cases h
          · next st s2 evs2 h2 =>
            split at h
            · cases h
            · next st3 s3 rest3 evs3 h3 =>
              cases h
              simp [decodeCalls, decodeCalls_append,
                displayFrame_decodeCalls _ _ _ _ _ _ _ _ h2, ih _ _ _ _ _ h3]

/-- A completed `decodeFrame` is one call of `decodeFrame`, with the arguments given. -/
theorem decodeFrame_decodeCalls (C : Config) (s s1 : MediaSession) (w w1 : Codec)
    (buffer : Nat) (size status : Int) (evs : List Event)
    (h : decodeFrame C s w buffer size = .ok (status, s1, w1, evs)) :
    decodeCalls evs = [(buffer, size)] := by
  unfold decodeFrame at h
  dsimp only at h
  split at h
  · cases h
  · split at h
    · cases h; rfl
    · split at h
      · cases h
      · next r s2 frames evs2 h2 =>
        cases h
        simp [decodeCalls, decodeFrameLoop_decodeCalls C _ _ _ _ _ _ h2]

/-- Counterexample to C1: 16 bytes were received and the outer length field says 0xFFFFFFFF,
far more than the 11 bytes that follow the outer header, yet `processPacket` returns 0 after
calling `decodeFrame` on the 5 bytes at offset 11. The same happens with an outer length of
100, in 32-bit arithmetic as well. -/
theorem processPacket_outer_length_unchecked :
    (wirePacket 0 0xFFFFFFFF 5 0 0 [1, 2, 3, 4, 5]).length = 16 ∧
    uiPackLen wireConfig (wirePacket 0 0xFFFFFFFF 5 0 0 [1, 2, 3, 4, 5]) = 0xFFFFFFFF ∧
    uiPackLen wireConfig (wirePacket 0 0xFFFFFFFF 5 0 0 [1, 2, 3, 4, 5]) >
      (wirePacket 0 0xFFFFFFFF 5 0 0 [1, 2, 3, 4, 5]).length - wireConfig.PACKHEAD_SIZE ∧
    processPacket wireConfig (MediaSession.new [] 0 none) ⟨[0], [needInput]⟩
        (wirePacket 0 0xFFFFFFFF 5 0 0 [1, 2, 3, 4, 5]) =
      .ok (0, { MediaSession.new [] 0 none with mAvPktSize := 5, mAvPktData := some 11 },
        ⟨[], []⟩,
        [.processPacket, .decodeFrame 11 5, .avcodec_send_packet 11 5 0,
         .avcodec_receive_frame (-11)]) ∧
    (wirePacket 0 100 5 0 0 [1, 2, 3, 4, 5]).length = 16 ∧
    uiPackLen wireConfig32 (wirePacket 0 100 5 0 0 [1, 2, 3, 4, 5]) >
      (wirePacket 0 100 5 0 0 [1, 2, 3, 4, 5]).length - wireConfig32.PACKHEAD_SIZE ∧
    processPacket wireConfig32 (MediaSession.new [] 0 none) ⟨[0], [needInput]⟩
        (wirePacket 0 100 5 0 0 [1, 2, 3, 4, 5]) =
      .ok (0, { MediaSession.new [] 0 none with mAvPktSize := 5, mAvPktData := some 11 },
        ⟨[], []⟩,
        [.processPacket, .decodeFrame 11 5, .avcodec_send_packet 11 5 0,
         .avcodec_receive_frame (-11)]) :=
  ⟨rfl, rfl, by decide, rfl, rfl, by decide, rfl⟩

/-- C1, amended: `processPacket` is not given the number of bytes received and never compares
the outer length with it. It returns the framing error -1, without calling `decodeFrame` and
without changing anything, exactly when the inner length plus `PACKHEAD_SIZE` plus the inner
header size exceeds the outer length plus the offset of `cPackType` (both sums in `size_t`
arithmetic); in every other case a call that completes returns 0. -/
theorem processPacket_framing_error (C : Config) (s : MediaSession) (w : Codec)
    (packet : Buffer) :
    (frameEnd C packet > packsize C packet →
      processPacket C s w packet = .ok (-1, s, w, [.processPacket])) ∧
    (¬ frameEnd C packet > packsize C packet →
      ∀ status s1 w1 evs, processPacket C s w packet = .ok (status, s1, w1, evs) →
        status = 0) := by
  constructor
  · intro h
    simp only [processPacket, h, if_true]
  · intro h status s1 w1 evs hp
    unfold processPacket at hp
    rw [if_neg h] at hp
    split at hp
    · split at hp
      · cases hp
      · cases hp; rfl
    · cases hp; rfl

/-- Witness of C1, amended: an inner length of 12 in an envelope of declared length 16 is a
framing error, and with an inner length of 5 the call returns 0. -/
theorem processPacket_framing_error_witness :
    processPacket wireConfig (MediaSession.new [] 0 none) ⟨[0], [needInput]⟩
        (wirePacket 0 16 12 0 0 [1, 2, 3, 4, 5]) =
      .ok (-1, MediaSession.new [] 0 none, ⟨[0], [needInput]⟩, [.processPacket]) ∧
    ∀ status s1 w1 evs,
      processPacket wireConfig (MediaSession.new [] 0 none) ⟨[0], [needInput]⟩
        (wirePacket 0 16 5 0 0 [1, 2, 3, 4, 5]) = .ok (status, s1, w1, evs) → status = 0 :=
  ⟨(processPacket_framing_error wireConfig (MediaSession.new [] 0 none) ⟨[0], [needInput]⟩
      (wirePacket 0 16 12 0 0 [1, 2, 3, 4, 5])).1 (by decide),
    (processPacket_framing_error wireConfig (MediaSession.new [] 0 none) ⟨[0], [needInput]⟩
      (wirePacket 0 16 5 0 0 [1, 2, 3, 4, 5])).2 (by decide)⟩

/-- C2, the failing input: outer length 0xFFFFFFF0, inner length 0x80000000, media kind IDR.
The length test passes, in 64-bit and in 32-bit arithmetic, and `decodeFrame` is called with
the negative size -2147483648. -/
theorem processPacket_negative_size :
    frameEnd wireConfig (wirePacket 0 0xFFFFFFF0 0x80000000 0 0 [1, 2, 3, 4, 5]) ≤
      packsize wireConfig (wirePacket 0 0xFFFFFFF0 0x80000000 0 0 [1, 2, 3, 4, 5]) ∧
    processPacket wireConfig (MediaSession.new [] 0 none) ⟨[0], [needInput]⟩
        (wirePacket 0 0xFFFFFFF0 0x80000000 0 0 [1, 2, 3, 4, 5]) =
      .ok (0, { MediaSession.new [] 0 none with
          mAvPktSize := -2147483648, mAvPktData := some 11 }, ⟨[], []⟩,
        [.processPacket, .decodeFrame 11 (-2147483648),
         .avcodec_send_packet 11 (-2147483648) 0, .avcodec_receive_frame (-11)]) ∧
    processPacket wireConfig32 (MediaSession.new [] 0 none) ⟨[0], [needInput]⟩
        (wirePacket 0 0xFFFFFFF0 0x80000000 0 0 [1, 2, 3, 4, 5]) =
      .ok (0, { MediaSession.new [] 0 none with
          mAvPktSize := -2147483648, mAvPktData := some 11 }, ⟨[], []⟩,
        [.processPacket, .decodeFrame 11 (-2147483648),
         .avcodec_send_packet 11 (-2147483648) 0, .avcodec_receive_frame (-11)]) :=
  ⟨by decide, rfl, rfl⟩

/-- Counterexample to C4: a packet of type 0x08 handed to `processPacket` passes the inner
length test and is decoded; the outcome is the one of the same packet with type 0, a
successfully processed media packet. -/
theorem processPacket_server_full_decoded :
    byteAt (wirePacket 0x08 16 5 0 0 [1, 2, 3, 4, 5]) wireConfig.posPackType = 0x08 ∧
    processPacket wireConfig (MediaSession.new [] 0 none) ⟨[0], [needInput]⟩
        (wirePacket 0x08 16 5 0 0 [1, 2, 3, 4, 5]) =
      .ok (0, { MediaSession.new [] 0 none with mAvPktSize := 5, mAvPktData := some 11 },
        ⟨[], []⟩,
        [.processPacket, .decodeFrame 11 5, .avcodec_send_packet 11 5 0,
         .avcodec_receive_frame (-11)]) ∧
    processPacket wireConfig (MediaSession.new [] 0 none) ⟨[0], [needInput]⟩
        (wirePacket 0x08 16 5 0 0 [1, 2, 3, 4, 5]) =
      processPacket wireConfig (MediaSession.new [] 0 none) ⟨[0], [needInput]⟩
        (wirePacket 0 16 5 0 0 [1, 2, 3, 4, 5]) :=
  ⟨rfl, rfl, rfl⟩

/-- C4, amended: `processPacket` does not read `cPackType`. Two packets that agree on every
byte but the one at the offset of `cPackType` have the same outcome (status, state, decoder
calls), so a packet of type 0x08 gets the inner length test and the media dispatch of any
other packet. -/
theorem processPacket_ignores_packType (C : Config) (h : packTypeApart C) (s : MediaSession)
    (w : Codec) (p q : Buffer) (hpq : ∀ i, i ≠ C.posPackType → byteAt p i = byteAt q i) :
    processPacket C s w p = processPacket C s w q := by
  obtain ⟨h1, h2, h3⟩ := h
  have e1 : uiPackLen C p = uiPackLen C q :=
    ntohlAt_congr p q _ (fun k hk1 hk2 => hpq k (by omega))
  have e2 : uiMediaPackLen C p = uiMediaPackLen C q :=
    ntohlAt_congr p q _ (fun k hk1 hk2 => hpq k (by omega))
  have e3 : cMediaType C p = cMediaType C q := hpq _ (fun hne => h3 hne.symm)
  simp only [processPacket, frameEnd, packsize, e1, e2, e3]

/-- Witness of C4, amended, at the layout of the wire format: type 0x08 against type 0. -/
theorem processPacket_ignores_packType_witness :
    packTypeApart wireConfig ∧
    processPacket wireConfig (MediaSession.new [] 0 none) ⟨[0], [needInput]⟩
        (wirePacket 0x08 16 5 0 1 [1, 2, 3, 4, 5]) =
      processPacket wireConfig (MediaSession.new [] 0 none) ⟨[0], [needInput]⟩
        (wirePacket 0 16 5 0 1 [1, 2, 3, 4, 5]) :=
  ⟨by decide, processPacket_ignores_packType wireConfig (by decide) (MediaSession.new [] 0 none)
    ⟨[0], [needInput]⟩ (wirePacket 0x08 16 5 0 1 [1, 2, 3, 4, 5])
    (wirePacket 0 16 5 0 1 [1, 2, 3, 4, 5])
    (fun i hi => by
      match i, hi with
      | 0, hi => exact absurd rfl hi
      | _ + 1, _ => rfl)⟩

/-- Where neither sum wraps around, the length test of `processPacket` compares the sums
themselves. -/
theorem length_test_exact (C : Config) (packet : Buffer)
    (hP : uiPackLen C packet + C.posPackType < 2 ^ C.sizeBits)
    (hM : uiMediaPackLen C packet + C.PACKHEAD_SIZE + C.posMediaData < 2 ^ C.sizeBits) :
    frameEnd C packet > packsize C packet ↔
      uiMediaPackLen C packet + C.PACKHEAD_SIZE + C.posMediaData >
        uiPackLen C packet + C.posPackType := by
  unfold frameEnd packsize
  rw [Nat.mod_eq_of_lt hP, Nat.mod_eq_of_lt hM]

/-- The part of C2 that the code keeps: where neither sum wraps around and `PACKHEAD_SIZE`
covers the outer header up to `pData`, a frame handed to `decodeFrame` with an inner length
below 2^31 has a non-negative size and ends inside the `uiPackLen` bytes that follow the
offset of `cPackType`. -/
theorem processPacket_frame_inside (C : Config) (s : MediaSession) (w : Codec)
    (packet : Buffer)
    (hP : uiPackLen C packet + C.posPackType < 2 ^ C.sizeBits)
    (hM : uiMediaPackLen C packet + C.PACKHEAD_SIZE + C.posMediaData < 2 ^ C.sizeBits)
    (hD : C.posData ≤ C.PACKHEAD_SIZE) (hlt : uiMediaPackLen C packet < 2 ^ 31)
    (status : Int) (s1 : MediaSession) (w1 : Codec) (evs : List Event)
    (h : processPacket C s w packet = .ok (status, s1, w1, evs)) :
    ∀ c ∈ decodeCalls evs, c.2 = (uiMediaPackLen C packet : Int) ∧
      c.1 + uiMediaPackLen C packet ≤ C.posPackType + uiPackLen C packet := by
  have hx := length_test_exact C packet hP hM
  unfold processPacket at h
  split at h
  · cases h
    intro c hc
    simp [decodeCalls] at hc
  · next hlen =>
    split at h
    · cases h2 : decodeFrame C s w (framedata C) (intOfUInt32 (uiMediaPackLen C packet)) with
      | error e => rw [h2] at h; cases h
      | ok r =>
        obtain ⟨r0, s2, w2, evs2⟩ := r
        rw [h2] at h
        cases h
        have hd := decodeFrame_decodeCalls C _ _ _ _ _ _ _ _ h2
        have h32 : uiMediaPackLen C packet % 2 ^ 32 = uiMediaPackLen C packet :=
          Nat.mod_eq_of_lt (by omega)
        intro c hc
        simp only [decodeCalls, hd, List.mem_singleton] at hc
        subst hc
        refine ⟨by simp only [intOfUInt32, h32, hlt, if_true], ?_⟩
        have hle := mt hx.mpr hlen
        simp only [framedata]
        omega
    · cases h
      intro c hc
      simp [decodeCalls] at hc

/-- The dispatch of `processPacket` on the media kind, for a packet that passes the length
test. With media kind IDR or P-slice it is one call of `decodeFrame` on the frame bytes, at
offset `posData + posMediaData`, with the `ntohl` of the inner length field converted to the
`int` parameter (the declared length itself when that is below 2^31), whose status it
replaces by 0. With media kind audio it returns 0 with nothing changed and no call of
`decodeFrame`, `avcodec_send_packet` or `displayFrame`. -/
theorem processPacket_dispatch (C : Config) (s : MediaSession) (w : Codec) (packet : Buffer)
    (hlen : ¬ frameEnd C packet > packsize C packet)
    (hA1 : C.MT_AUDIO ≠ C.MT_IDR) (hA2 : C.MT_AUDIO ≠ C.MT_PSLICE) :
    ((byteAt packet (C.posData + C.posMediaType) = C.MT_IDR ∨
        byteAt packet (C.posData + C.posMediaType) = C.MT_PSLICE) →
      processPacket C s w packet =
        (decodeFrame C s w (C.posData + C.posMediaData)
            (intOfUInt32 (ntohlAt packet (C.posData + C.posMediaLength)))).map
          (fun r => (0, r.2.1, r.2.2.1, .processPacket :: r.2.2.2)) ∧
      (∀ status s1 w1 evs, processPacket C s w packet = .ok (status, s1, w1, evs) →
        status = 0 ∧
        decodeCalls evs = [(C.posData + C.posMediaData,
          intOfUInt32 (ntohlAt packet (C.posData + C.posMediaLength)))]) ∧
      (ntohlAt packet (C.posData + C.posMediaLength) < 2 ^ 31 →
        intOfUInt32 (ntohlAt packet (C.posData + C.posMediaLength)) =
          (ntohlAt packet (C.posData + C.posMediaLength) : Int))) ∧
    (byteAt packet (C.posData + C.posMediaType) = C.MT_AUDIO →
      processPacket C s w packet = .ok (0, s, w, [.processPacket])) := by
  constructor
  · intro hk
    have hp : processPacket C s w packet =
        (decodeFrame C s w (C.posData + C.posMediaData)
            (intOfUInt32 (ntohlAt packet (C.posData + C.posMediaLength)))).map
          (fun r => (0, r.2.1, r.2.2.1, .processPacket :: r.2.2.2)) := by
      simp only [processPacket, if_neg hlen, cMediaType, if_pos hk, framedata, uiMediaPackLen]
      cases decodeFrame C s w (C.posData + C.posMediaData)
        (intOfUInt32 (ntohlAt packet (C.posData + C.posMediaLength))) <;> rfl
    refine ⟨hp, ?_, ?_⟩
    · intro status s1 w1 evs h
      rw [hp] at h
      cases h2 : decodeFrame C s w (C.posData + C.posMediaData)
          (intOfUInt32 (ntohlAt packet (C.posData + C.posMediaLength))) with
      | error e => rw [h2] at h; cases h
      | ok r =>
        obtain ⟨r0, s2, w2, evs2⟩ := r
        rw [h2] at h
        cases h
        refine ⟨rfl, ?_⟩
        simpa [decodeCalls] using decodeFrame_decodeCalls C _ _ _ _ _ _ _ _ h2
    · intro hlt
      have h32 : ntohlAt packet (C.posData + C.posMediaLength) % 2 ^ 32 =
          ntohlAt packet (C.posData + C.posMediaLength) :=
        Nat.mod_eq_of_lt (by omega)
      simp only [intOfUInt32, h32, hlt, if_true]
  · intro hk
    have hn : ¬ (cMediaType C packet = C.MT_IDR ∨ cMediaType C packet = C.MT_PSLICE) := by
      unfold cMediaType
      rw [hk]
      rintro (h | h)
      · exact hA1 h
      · exact hA2 h
    simp only [processPacket, if_neg hlen, if_neg hn]

/-- C5: when `init` succeeds and the buffer filled by the first `receive_packet_to_buffer`
has `cPackType` 0x08, `start` returns -1 with `isRunning` still false; the calls made are
those of `init` and the one receive, so neither `processPacket` nor `decodeFrame` nor
`avcodec_send_packet` is called, and the decoder scripts are untouched. -/
theorem start_server_full (C : Config) (s : MediaSession) (a : InitAnswers) (w : Codec)
    (st : Int) (buf : Buffer) (rest : List (Int × Buffer))
    (hrun : s.isRunning = false) (hinit : (init s a).1 = 0)
    (hfull : byteAt buf C.posPackType = 0x08) :
    ∃ s1, start C s a w ((st, buf) :: rest) =
        .ok (-1, s1, w, rest,
          [.avcodec_find_decoder a.codec, .avcodec_open2 a.open2,
           .receive_packet_to_buffer st]) ∧
      s1.isRunning = false ∧ s1.tmpRecvBuf = buf := by
  rcases a with ⟨codec, ctx, frame, open2⟩
  cases codec with
  | none => simp [init] at hinit
  | some c =>
    by_cases ho : open2 < 0
    · simp [init, ho] at hinit
    · refine ⟨{ s with
          mCodec := some c, mCodecCtx := ctx, mAvFrame := frame, mAvPktSize := 0,
          mAvPktData := none, tmpRecvBuf := buf }, ?_, hrun, rfl⟩
      simp only [start, init, ho, if_false, ne_eq, not_true_eq_false, hfull, if_true,
        List.cons_append, List.nil_append]

/-- Witness of C5: the first packet says "server full". -/
theorem start_server_full_witness :
    ∃ s1, start wireConfig (MediaSession.new [] 0 none) initOk ⟨[0], [needInput]⟩
        ((0, wirePacket 0x08 0 0 0 0 []) :: [(0, wirePacket 0 16 5 0 0 [1, 2, 3, 4, 5])]) =
        .ok (-1, s1, ⟨[0], [needInput]⟩, [(0, wirePacket 0 16 5 0 0 [1, 2, 3, 4, 5])],
          [.avcodec_find_decoder initOk.codec, .avcodec_open2 initOk.open2,
           .receive_packet_to_buffer 0]) ∧
      s1.isRunning = false ∧ s1.tmpRecvBuf = wirePacket 0x08 0 0 0 0 [] :=
  start_server_full wireConfig (MediaSession.new [] 0 none) initOk ⟨[0], [needInput]⟩ 0
    (wirePacket 0x08 0 0 0 0 []) [(0, wirePacket 0 16 5 0 0 [1, 2, 3, 4, 5])] rfl rfl rfl

set_option maxHeartbeats 800000 in
/-- C3, the failing input: `avcodec_send_packet` rejects the first packet, so `decodeFrame`
returns -1; `processPacket` returns 0 all the same, and `start` goes on to receive and
decode the second packet. -/
theorem start_continues_after_decode_error :
    decodeFrame wireConfig
        { MediaSession.new (wirePacket 0 16 5 0 0 [1, 2, 3, 4, 5]) 0 none with
          isRunning := true, mCodec := some 1, mCodecCtx := some 2, mAvFrame := some 3 }
        ⟨[-22, 0], [needInput]⟩ 11 5 =
      .ok (-1,
        { MediaSession.new (wirePacket 0 16 5 0 0 [1, 2, 3, 4, 5]) 5 (some 11) with
          isRunning := true, mCodec := some 1, mCodecCtx := some 2, mAvFrame := some 3 },
        ⟨[0], [needInput]⟩, [.decodeFrame 11 5, .avcodec_send_packet 11 5 (-22)]) ∧
    processPacket wireConfig
        { MediaSession.new (wirePacket 0 16 5 0 0 [1, 2, 3, 4, 5]) 0 none with
          isRunning := true, mCodec := some 1, mCodecCtx := some 2, mAvFrame := some 3 }
        ⟨[-22, 0], [needInput]⟩ (wirePacket 0 16 5 0 0 [1, 2, 3, 4, 5]) =
      .ok (0,
        { MediaSession.new (wirePacket 0 16 5 0 0 [1, 2, 3, 4, 5]) 5 (some 11) with
          isRunning := true, mCodec := some 1, mCodecCtx := some 2, mAvFrame := some 3 },
        ⟨[0], [needInput]⟩,
        [.processPacket, .decodeFrame 11 5, .avcodec_send_packet 11 5 (-22)]) ∧
    start wireConfig (MediaSession.new [] 0 none) initOk ⟨[-22, 0], [needInput]⟩
        [(0, wirePacket 0 16 5 0 0 [1, 2, 3, 4, 5]), (0, wirePacket 0 16 5 0 1 [6, 7, 8, 9, 10]),
         (-1, [])] =
      .ok (0,
        { MediaSession.new [] 5 (some 11) with
          isRunning := true, mCodec := some 1, mCodecCtx := some 2, mAvFrame := some 3 },
        ⟨[], []⟩, [],
        [.avcodec_find_decoder (some 1), .avcodec_open2 0, .receive_packet_to_buffer 0,
         .processPacket, .decodeFrame 11 5, .avcodec_send_packet 11 5 (-22),
         .receive_packet_to_buffer 0,
         .processPacket, .decodeFrame 11 5, .avcodec_send_packet 11 5 0,
         .avcodec_receive_frame (-11),
         .receive_packet_to_buffer (-1)]) :=
  ⟨rfl, rfl, rfl⟩

/-- C6, the failing input: the first `receive_packet_to_buffer` returns -1 and leaves the
receive buffer as it was, sixteen zero bytes. `start` sets `isRunning`, calls `processPacket`
on that buffer and returns 0. -/
theorem start_after_failed_first_receive :
    start wireConfig (MediaSession.new (List.replicate 16 0) 0 none) initOk
        ⟨[0], [needInput]⟩ [(-1, List.replicate 16 0)] =
      .ok (0,
        { MediaSession.new (List.replicate 16 0) 0 none with
          isRunning := true, mCodec := some 1, mCodecCtx := some 2, mAvFrame := some 3 },
        ⟨[0], [needInput]⟩, [],
        [.avcodec_find_decoder (some 1), .avcodec_open2 0, .receive_packet_to_buffer (-1),
         .processPacket]) :=
  rfl

end BubbleClient
